import Mathlib

set_option linter.unusedVariables false

/-
  Verification of the lab-7 multi-agent pipeline scripts.

  This file gives a shallow embedding of the two scripts:
  - src/lab-7-multi-agents/crewai/crewai_demo.py (tool templates, the
    hotel-location selection duplicated in agent and task creation, and the
    command-line argument parsing of the __main__ block), and
  - src/lab-7-multi-agents/autogen/autogen_interview_platform.py (the five
    workflow phases, the accumulated outputs mapping, and OutputManager),
  and proves the stated properties about them.

  Conventions of the embedding:
  - The remote chat-completion call is modelled by an oracle
    Nat -> Except ModelError String, indexed by the number of calls made so
    far in the run; a Python exception raised by the client corresponds to
    the Except.error case, which (as in the source, which has no try/except
    around the calls) propagates out of the workflow at once.
  - print statements, timestamps and file handles are irrelevant to the
    claims and are dropped; the text written by OutputManager.save_outputs
    is modelled as the returned string, with the generation timestamp as a
    parameter.
  - Multi-line Python string literals are transcribed with their wording
    intact and the leading indentation of the triple-quoted blocks
    normalized.
-/

-- ===========================================================================
-- crewai_demo.py : the five tool functions
-- Each Python tool builds a local search_query string (never used) and
-- returns an f-string template of its arguments; no requests call, no
-- network access appears in the function bodies.
-- ===========================================================================

/-- First literal piece of the search_flight_prices f-string. -/
def flight_t1 : String := "\nResearch task: Find flights from "

/-- Literal between the two interpolations of search_flight_prices. -/
def flight_t2 : String := " to "

/-- Trailing literal of the search_flight_prices f-string. -/
def flight_t3 : String := ".\n\nPlease research and provide:\n1. Current flight options with prices (check Kayak, Skyscanner, Google Flights)\n2. Airlines operating these routes\n3. Flight durations and layover information\n4. Best booking times and price trends\n5. Seasonal pricing variations\n\nFocus on realistic, current pricing for January 2026 travel.\n"

/-- Tool search_flight_prices (crewai_demo.py lines 44-65): builds an
unused search_query, then returns the f-string template of its two
arguments.  No flight API and no network call appear in the body. -/
def search_flight_prices (destination : String) (departure_city : String := "New York") : String :=
  let search_query := "flights from " ++ departure_city ++ " to " ++ destination ++ " prices 2026 best options"
  flight_t1 ++ departure_city ++ flight_t2 ++ destination ++ flight_t3

/-- First literal piece of the search_hotel_options f-string. -/
def hotel_t1 : String := "\nResearch task: Find hotels in "

/-- Literal between the two interpolations of search_hotel_options. -/
def hotel_t2 : String := " for check-in "

/-- Trailing literal of the search_hotel_options f-string. -/
def hotel_t3 : String := ".\n\nPlease research and provide:\n1. Top-rated hotels with guest reviews (check Booking.com, TripAdvisor, Google Hotels)\n2. Current pricing for 5-night stays\n3. Hotel amenities and facilities\n4. Location details and proximity to attractions\n5. Guest ratings and recommendation reasons\n\nInclude budget, mid-range, and luxury options.\nFocus on hotels with high ratings and realistic current prices.\n"

/-- Tool search_hotel_options (crewai_demo.py lines 68-88). -/
def search_hotel_options (location : String) (check_in_date : String) : String :=
  let search_query := "hotels in " ++ location ++ " " ++ check_in_date ++ " reviews ratings prices 2026"
  hotel_t1 ++ location ++ hotel_t2 ++ check_in_date ++ hotel_t3

/-- Leading literal of the search_local_transportation f-string. -/
def transport_t1 : String := "\nResearch task: Find local transportation options in "

/-- Trailing literal of the search_local_transportation f-string. -/
def transport_t2 : String := ".\n\nPlease research and provide:\n1. Public transportation systems (buses, trains, subways)\n2. Rental car options and average daily rates\n3. Taxi and rideshare services (Uber, Lyft, local equivalents)\n4. Transportation passes or tourist cards\n5. Estimated costs for different transportation methods\n6. Best transportation options for tourists\n7. Driving considerations (license requirements, road conditions)\n8. Walking and biking options\n\nProvide realistic, current pricing and practical advice for travelers.\nFocus on options that are convenient and cost-effective for tourists.\n"

/-- Tool search_local_transportation (crewai_demo.py lines 90-113). -/
def search_local_transportation (destination : String) : String :=
  let search_query := destination ++ " local transportation public transit rental cars taxis rideshare 2026"
  transport_t1 ++ destination ++ transport_t2

/-- Leading literal of the search_attractions_activities f-string. -/
def attractions_t1 : String := "\nResearch task: Find attractions and activities in "

/-- Trailing literal of the search_attractions_activities f-string. -/
def attractions_t2 : String := ".\n\nPlease research and provide:\n1. Top-rated attractions and their estimated visit times\n2. Popular day tours and multi-day excursions\n3. Outdoor activities (hiking, water sports, wildlife viewing)\n4. Cultural sites and local experiences\n5. Typical costs for tours and entrance fees\n6. Best time to visit each location\n7. Transportation options between sites\n\nInclude hidden gems and less-known but highly-rated activities.\nFocus on realistic itineraries that can be completed in 5 days.\n"

/-- Tool search_attractions_activities (crewai_demo.py lines 115-137). -/
def search_attractions_activities (destination : String) : String :=
  let search_query := destination ++ " attractions activities tours things to do 2026"
  attractions_t1 ++ destination ++ attractions_t2

/-- Leading literal of the search_travel_costs f-string. -/
def costs_t1 : String := "\nResearch task: Find cost information for a trip to "

/-- Trailing literal of the search_travel_costs f-string. -/
def costs_t2 : String := ".\n\nPlease research and provide:\n1. Average meal costs (budget, mid-range, restaurants)\n2. Public transportation costs and rental car prices\n3. Tour and activity pricing\n4. Entrance fees for attractions\n5. Estimated daily costs for different budget levels\n6. Money-saving tips and best budget periods\n7. Currency exchange rates and payment methods\n\nProvide realistic, current pricing information for 2025.\nFocus on actual costs travelers can expect.\n"

/-- Tool search_travel_costs (crewai_demo.py lines 140-162). -/
def search_travel_costs (destination : String) : String :=
  let search_query := destination ++ " travel costs budget prices meals transport 2025"
  costs_t1 ++ destination ++ costs_t2

/-- A string n occurs as a literal substring of h. -/
def substr (n h : String) : Prop := ∃ p s, h = p ++ n ++ s

-- ===========================================================================
-- crewai_demo.py : hotel location selection, duplicated verbatim in
-- create_hotel_agent (lines 190-199) and create_hotel_task (lines 302-311).
-- ===========================================================================

/-- Model of the Python str.lower() method: lower-case every character.
All strings compared against in the source are ASCII, where Char.toLower
agrees with Python lower-casing. -/
def lower (s : String) : String := String.mk (s.data.map Char.toLower)

/-- The hotel_location computed at the top of create_hotel_agent. -/
def create_hotel_agent_hotel_location (destination : String) : String :=
  if lower destination == "iceland" then "Reykjavik"
  else if lower destination == "france" then "Paris"
  else if lower destination == "japan" then "Tokyo"
  else destination

/-- The hotel_location computed at the top of create_hotel_task. -/
def create_hotel_task_hotel_location (destination : String) : String :=
  if lower destination == "iceland" then "Reykjavik"
  else if lower destination == "france" then "Paris"
  else if lower destination == "japan" then "Tokyo"
  else destination

/-- The goal string of the Agent built by create_hotel_agent. -/
def create_hotel_agent_goal (destination trip_dates : String) : String :=
  "Suggest top-rated hotels in " ++ create_hotel_agent_hotel_location destination ++
  " for the " ++ destination ++ " trip (" ++ trip_dates ++
  "), considering amenities, location, and value for money. Use real hotel data from booking sites with current prices and reviews."

/-- The description string of the Task built by create_hotel_task. -/
def create_hotel_task_description (destination trip_dates : String) : String :=
  "Based on the trip dates (" ++ trip_dates ++ "), find and recommend the top 3-4 REAL hotels in " ++
  create_hotel_task_hotel_location destination ++
  ". Research actual hotels on Booking.com, TripAdvisor, Google Hotels, and Expedia. For each hotel, provide the actual name, current guest ratings, real prices per night, confirmed amenities, and explain why it suits this trip. Include a mix of budget, mid-range, and luxury options with honest reviews."

example : create_hotel_agent_hotel_location "Iceland" = "Reykjavik" := by decide
example : create_hotel_agent_hotel_location "Oslo" = "Oslo" := by decide

-- ===========================================================================
-- crewai_demo.py : the __main__ block (lines 551-580)
-- ===========================================================================

/-- The keyword arguments of crewai_demo.main with its declared defaults. -/
structure TravelKwargs where
  destination : String
  trip_duration : String
  departure_city : String
  trip_dates : String
  travelers : Int
  budget_preference : String
deriving DecidableEq, Repr

/-- The kwargs dictionary initialised at lines 555-562. -/
def default_kwargs : TravelKwargs :=
  { destination := "Iceland", trip_duration := "5 days",
    trip_dates := "January 15-20, 2026", departure_city := "New York",
    travelers := 2, budget_preference := "mid-range" }

/-- Value of a (non-empty) run of decimal digits, none if empty or not all digits. -/
def digitsVal (l : List Char) : Option Nat :=
  if l.isEmpty then none
  else if l.all Char.isDigit then
    some (l.foldl (fun n c => n * 10 + (c.toNat - 48)) 0)
  else none

/-- Model of the Python built-in int() on a string: strip surrounding
whitespace, allow one optional sign, then require decimal digits; anything
else raises ValueError (the none case).  (Python additionally allows
underscores between digits; no claim depends on that.) -/
def python_int (s : String) : Option Int :=
  match (((s.data.dropWhile Char.isWhitespace).reverse.dropWhile Char.isWhitespace).reverse) with
  | [] => none
  | c :: rest =>
    if c = '-' then (digitsVal rest).map (fun n => -(n : Int))
    else if c = '+' then (digitsVal rest).map (fun n => (n : Int))
    else (digitsVal (c :: rest)).map (fun n => (n : Int))

/-- The __main__ block of crewai_demo.py (lines 551-580): successive
len(sys.argv) checks overwrite kwargs entries positionally, and the fifth
user argument is passed through int().  A ValueError raised by int()
(the Except.error case) aborts the program before main, and hence the
crew, ever runs.  sys_argv includes the program name at index 0. -/
def parse_cli (sys_argv : List String) : Except Unit TravelKwargs :=
  let k := default_kwargs
  let k := if sys_argv.length > 1 then { k with destination := sys_argv.getD 1 "" } else k
  let k := if sys_argv.length > 2 then { k with trip_duration := sys_argv.getD 2 "" } else k
  let k := if sys_argv.length > 3 then { k with departure_city := sys_argv.getD 3 "" } else k
  let k := if sys_argv.length > 4 then { k with trip_dates := sys_argv.getD 4 "" } else k
  if sys_argv.length > 5 then
    match python_int (sys_argv.getD 5 "") with
    | none => Except.error ()
    | some n =>
      let k := { k with travelers := n }
      let k := if sys_argv.length > 6 then { k with budget_preference := sys_argv.getD 6 "" } else k
      Except.ok k
  else
    Except.ok k

example : python_int "4" = some 4 := by decide
example : python_int "four" = none := by decide
example : python_int " -17 " = some (-17) := by decide
example : parse_cli ["crewai_demo.py", "France"] =
    Except.ok { default_kwargs with destination := "France" } := by rfl

-- ===========================================================================
-- autogen_interview_platform.py : agent system messages
-- (InterviewPlatformAgents.create_*_agent, lines 34-178)
-- ===========================================================================

/-- System message stored under agents["research"] (lines 39-53). -/
def research_system_message : String :=
  "You are an expert market research analyst specializing in AI-powered\ninterview platforms and recruitment technology. Your task is to:\n\n1. Research and identify 3-4 major competitors in the AI interview space\n(e.g., HireVue, Pymetrics, Codility, etc.)\n2. Summarize their key features and market positioning\n3. Identify current trends in AI-powered recruiting\n4. Note any unmet market needs\n\nProvide a comprehensive competitive landscape analysis. Be specific with competitor names,\nfeatures, and market gaps you identify.\n\nFormat your response as a structured analysis with clear sections."

/-- System message stored under agents["analysis"] (lines 61-79). -/
def analysis_system_message : String :=
  "You are a strategic product analyst with expertise in SaaS product\ndevelopment. Based on market research findings, your task is to:\n\n1. Analyze the competitive landscape provided\n2. Identify 3 key market gaps or opportunities\n3. For each opportunity, explain:\n- What the gap is\n- Why it matters\n- How it can be addressed\n- Potential market size/impact\n\nFocus on opportunities that are:\n- Underserved by competitors\n- Valuable to customers\n- Technically feasible\n\nProvide structured analysis with numbered opportunities."

/-- System message stored under agents["blueprint"] (lines 87-111). -/
def blueprint_system_message : String :=
  "You are an experienced product designer and UX strategist.\nBased on the market analysis and identified opportunities, create a product blueprint:\n\n1. Core Features (MVP):\n- List 5-7 essential features\n- Include feature descriptions\n- Explain how each addresses identified opportunities\n\n2. User Journey:\n- Map the main user flow for a hiring manager\n- Include key touchpoints\n- Describe the interview scheduling and analysis flow\n\n3. Differentiation:\n- Highlight how this product stands out\n- Key competitive advantages\n\n4. Target User Personas:\n- Hiring managers\n- Recruiters\n- Candidates\n\nFormat as a comprehensive product blueprint document."

/-- System message stored under agents["technical"] (lines 119-144). -/
def technical_system_message : String :=
  "You are a senior AI engineer and technical architect specializing\nin machine learning systems and scalable software architecture. Your task is to:\n\n1. Technical Feasibility Assessment:\n- Evaluate which AI/ML features are technically feasible\n- Identify potential technical challenges and limitations\n- Suggest alternative technical approaches if needed\n\n2. Implementation Requirements:\n- Estimate development complexity and timelines\n- Identify required technologies and frameworks\n- Suggest optimal tech stack for the proposed features\n\n3. Scalability & Performance:\n- Assess scalability requirements for multi-user platform\n- Identify potential performance bottlenecks\n- Recommend architecture patterns for reliability\n\n4. Data & Infrastructure:\n- Analyze data requirements for AI models\n- Suggest infrastructure needs (cloud, storage, compute)\n- Identify data privacy and security considerations\n\nProvide a structured technical assessment with clear recommendations."

/-- System message stored under agents["reviewer"] (lines 152-177). -/
def reviewer_system_message : String :=
  "You are an experienced product executive and business strategist.\nYour role is to review the product blueprint and provide strategic recommendations:\n\n1. Feasibility Assessment:\n- Is the feature set realistic to build?\n- What might be missing?\n\n2. Market Viability:\n- Will this product succeed?\n- Any market risks?\n\n3. Business Model Suggestions:\n- Pricing strategy recommendations\n- Revenue streams\n\n4. Implementation Roadmap:\n- Phased launch approach\n- Key milestones\n\n5. Next Steps & Action Items:\n- Top 5 priorities for next phase\n- Resource requirements\n\nProvide constructive feedback and actionable recommendations."

-- ===========================================================================
-- autogen_interview_platform.py : per-phase user messages
-- (the f-strings built inside each phase method)
-- ===========================================================================

/-- initial_message of initiate_research_phase (lines 200-207); it uses no
prior stage output. -/
def research_initial_message : String :=
  "Please conduct a comprehensive market analysis for AI-powered\ninterview platforms. Focus on:\n\n1. Current market leaders and their key features\n2. Market trends and innovations\n3. Unmet needs and gaps\n\nProvide your analysis in a structured format."

/-- Leading literal of the analysis_message f-string. -/
def analysis_u1 : String :=
  "Based on the following market research, identify 3 key\nopportunities for an AI-powered interview platform:\n\nRESEARCH FINDINGS:\n"

/-- Trailing literal of the analysis_message f-string. -/
def analysis_u2 : String :=
  "\n\nPlease provide detailed analysis of market gaps and opportunities."

/-- analysis_message of conduct_analysis_phase (lines 236-242): an f-string
that textually embeds research_output. -/
def analysis_user_message (research_output : String) : String :=
  analysis_u1 ++ research_output ++ analysis_u2

/-- blueprint_message of create_blueprint_phase (lines 270-279). -/
def blueprint_user_message (research_output analysis_output : String) : String :=
  "Based on the market research and opportunity analysis below,\ncreate a comprehensive product blueprint for an AI-powered interview platform:\n\nMARKET RESEARCH:\n" ++
  research_output ++
  "\n\nOPPORTUNITY ANALYSIS:\n" ++
  analysis_output ++
  "\n\nPlease create a detailed product blueprint with features, user journey, and differentiation."

/-- technical_message of conduct_technical_assessment_phase (lines 307-314). -/
def technical_user_message (blueprint_output : String) : String :=
  "Please conduct a technical feasibility assessment of the\nfollowing product blueprint for an AI-powered interview platform:\n\nPRODUCT BLUEPRINT:\n" ++
  blueprint_output ++
  "\n\nAssess the technical feasibility, implementation requirements, and provide\nrecommendations for the technology stack and architecture."

/-- review_message of conduct_review_phase (lines 342-352). -/
def review_user_message (blueprint_output technical_output : String) : String :=
  "Please review the following product blueprint and technical assessment,\nthen provide strategic recommendations, feasibility assessment, and next steps:\n\nPRODUCT BLUEPRINT:\n" ++
  blueprint_output ++
  "\n\nTECHNICAL ASSESSMENT:\n" ++
  technical_output ++
  "\n\nProvide comprehensive review with actionable recommendations considering both\nbusiness strategy and technical feasibility."

-- ===========================================================================
-- autogen_interview_platform.py : workflow execution
-- (InterviewPlatformWorkflow, lines 185-394)
-- ===========================================================================

/-- Failure of the remote chat-completion call.  The spec distinguishes
transient (rate limit, timeout, 5xx) from fatal (auth, malformed request)
failures; the source catches neither inside the workflow, so both
propagate identically. -/
inductive ModelError where
  | transient : ModelError
  | fatal : ModelError
deriving DecidableEq, Repr

/-- The remote model, as seen through client.chat.completions.create: the
k-th call of a run (0-based, counting every call the run makes) either
returns the completion text or raises. -/
def Oracle : Type := Nat → Except ModelError String

/-- Observable steps of a workflow run, in the order they happen:
rendering a phase user message from the prior outputs handed to that
phase, issuing a model call (stage, system message, user message), and
recording an output into self.outputs. -/
inductive Event where
  | render : String → List (String × String) → Event
  | call : String → String → String → Event
  | record : String → String → Event
deriving DecidableEq, Repr

/-- Mutable state of one InterviewPlatformWorkflow run: the accumulated
self.outputs mapping (insertion-ordered, as a Python dict), plus the
event trace and the number of model calls made so far. -/
structure WFState where
  outputs : List (String × String)
  trace : List Event
  calls : Nat
deriving DecidableEq, Repr

/-- The state a freshly constructed workflow starts from
(InterviewPlatformWorkflow.__init__ sets self.outputs = empty dict). -/
def initState : WFState := { outputs := [], trace := [], calls := 0 }

/-- One client.chat.completions.create call with messages
[system, user]: the call is traced, the call counter advances, and the
oracle either returns the completion or raises. -/
def chat_completions_create (oracle : Oracle) (st : WFState)
    (stage system_message user_message : String) :
    Except ModelError String × WFState :=
  let st1 : WFState :=
    { st with trace := st.trace ++ [Event.call stage system_message user_message],
              calls := st.calls + 1 }
  match oracle st.calls with
  | Except.error e => (Except.error e, st1)
  | Except.ok out => (Except.ok out, st1)

/-- Shared shape of every phase method: build the user message from the
outputs handed to the phase (the render step), make exactly one model
call, and on success store the output under the stage name; on an
exception the phase (and with it the run) aborts at once, outputs
untouched.  args lists the prior-stage outputs the phase received as
parameters, keyed by the stage they came from. -/
def run_phase (oracle : Oracle) (st : WFState) (stage : String)
    (args : List (String × String)) (system_message user_message : String) :
    Except ModelError String × WFState :=
  let st0 : WFState := { st with trace := st.trace ++ [Event.render stage args] }
  match chat_completions_create oracle st0 stage system_message user_message with
  | (Except.error e, st1) => (Except.error e, st1)
  | (Except.ok output, st1) =>
    (Except.ok output,
      { st1 with outputs := st1.outputs ++ [(stage, output)],
                 trace := st1.trace ++ [Event.record stage output] })

/-- initiate_research_phase (lines 192-226): fixed prompt, no prior outputs. -/
def initiate_research_phase (oracle : Oracle) (st : WFState) :
    Except ModelError String × WFState :=
  run_phase oracle st "research" [] research_system_message research_initial_message

/-- conduct_analysis_phase (lines 228-260): receives research_output. -/
def conduct_analysis_phase (oracle : Oracle) (st : WFState)
    (research_output : String) : Except ModelError String × WFState :=
  run_phase oracle st "analysis" [("research", research_output)]
    analysis_system_message (analysis_user_message research_output)

/-- create_blueprint_phase (lines 262-297): receives research_output and
analysis_output. -/
def create_blueprint_phase (oracle : Oracle) (st : WFState)
    (research_output analysis_output : String) : Except ModelError String × WFState :=
  run_phase oracle st "blueprint"
    [("research", research_output), ("analysis", analysis_output)]
    blueprint_system_message (blueprint_user_message research_output analysis_output)

/-- conduct_technical_assessment_phase (lines 299-332): receives only
blueprint_output. -/
def conduct_technical_assessment_phase (oracle : Oracle) (st : WFState)
    (blueprint_output : String) : Except ModelError String × WFState :=
  run_phase oracle st "technical" [("blueprint", blueprint_output)]
    technical_system_message (technical_user_message blueprint_output)

/-- conduct_review_phase (lines 334-370): receives blueprint_output and
technical_output. -/
def conduct_review_phase (oracle : Oracle) (st : WFState)
    (blueprint_output technical_output : String) : Except ModelError String × WFState :=
  run_phase oracle st "review"
    [("blueprint", blueprint_output), ("technical", technical_output)]
    reviewer_system_message (review_user_message blueprint_output technical_output)

/-- execute_workflow (lines 372-394): the five phases run in sequence,
each fed the outputs the source passes it; an exception anywhere
propagates (there is no try/except inside the workflow), and on success
self.outputs is returned. -/
def execute_workflow (oracle : Oracle) : Except ModelError (List (String × String)) × WFState :=
  match initiate_research_phase oracle initState with
  | (Except.error e, st) => (Except.error e, st)
  | (Except.ok research_output, st) =>
    match conduct_analysis_phase oracle st research_output with
    | (Except.error e, st) => (Except.error e, st)
    | (Except.ok analysis_output, st) =>
      match create_blueprint_phase oracle st research_output analysis_output with
      | (Except.error e, st) => (Except.error e, st)
      | (Except.ok blueprint_output, st) =>
        match conduct_technical_assessment_phase oracle st blueprint_output with
        | (Except.error e, st) => (Except.error e, st)
        | (Except.ok technical_output, st) =>
          match conduct_review_phase oracle st blueprint_output technical_output with
          | (Except.error e, st) => (Except.error e, st)
          | (Except.ok review_output, st) => (Except.ok st.outputs, st)

/-- The five stage names in declared order. -/
def stageNames : List String := ["research", "analysis", "blueprint", "technical", "review"]

/-- Name of the i-th stage. -/
def stageName (i : Nat) : String := stageNames.getD i ""

/-- Stage an event belongs to. -/
def eventStage : Event → String
  | Event.render s _ => s
  | Event.call s _ _ => s
  | Event.record s _ => s

/-- Is the event a model call? -/
def isCallEv : Event → Bool
  | Event.call _ _ _ => true
  | _ => false

/-- Is the event a render step? -/
def isRenderEv : Event → Bool
  | Event.render _ _ => true
  | _ => false

/-- Is the event a record of an output? -/
def isRecordEv : Event → Bool
  | Event.record _ _ => true
  | _ => false

/-- Number of model calls in a trace. -/
def countCalls (tr : List Event) : Nat := (tr.filter isCallEv).length

/-- A render or call event of stage i: stage i beginning its work. -/
def startsStage (i : Nat) (e : Event) : Bool :=
  (isRenderEv e || isCallEv e) && (eventStage e == stageName i)

/-- A record event of stage i. -/
def recordsStage (i : Nat) (e : Event) : Bool :=
  isRecordEv e && (eventStage e == stageName i)

-- ===========================================================================
-- autogen_interview_platform.py : OutputManager.save_outputs (lines 409-444)
-- ===========================================================================

/-- The 80-character separator line written as "="*80. -/
def eq80 : String := String.mk (List.replicate 80 '=')

/-- The 80-character separator line written as "-"*80. -/
def dash80 : String := String.mk (List.replicate 80 '-')

/-- Python dict.get(k, dflt) on the insertion-ordered outputs mapping. -/
def dict_get (outputs : List (String × String)) (k dflt : String) : String :=
  (List.lookup k outputs).getD dflt

/-- The text OutputManager.save_outputs writes to the output file, as a
function of the outputs mapping; the generation timestamp is the
generated parameter.  Every stage section falls back on the fixed
placeholder string of the source via dict.get. -/
def save_outputs_text (outputs : List (String × String)) (generated : String) : String :=
  eq80 ++ "\n" ++
  "AI-POWERED INTERVIEW PLATFORM - PRODUCT PLAN\n" ++
  eq80 ++ "\n" ++
  "Generated: " ++ generated ++ "\n\n" ++
  "PHASE 1: MARKET RESEARCH & COMPETITIVE ANALYSIS\n" ++ dash80 ++ "\n" ++
  dict_get outputs "research" "No research output" ++ "\n\n" ++
  "PHASE 2: MARKET GAP ANALYSIS & OPPORTUNITIES\n" ++ dash80 ++ "\n" ++
  dict_get outputs "analysis" "No analysis output" ++ "\n\n" ++
  "PHASE 3: PRODUCT BLUEPRINT\n" ++ dash80 ++ "\n" ++
  dict_get outputs "blueprint" "No blueprint output" ++ "\n\n" ++
  "PHASE 4: TECHNICAL FEASIBILITY ASSESSMENT\n" ++ dash80 ++ "\n" ++
  dict_get outputs "technical" "No technical output" ++ "\n\n" ++
  "PHASE 5: PRODUCT REVIEW & RECOMMENDATIONS\n" ++ dash80 ++ "\n" ++
  dict_get outputs "review" "No review output" ++ "\n\n"

-- ===========================================================================
-- Heap model for run independence: each InterviewPlatformWorkflow instance
-- owns its own self.outputs dict (allocated fresh by __init__), and
-- execute_workflow writes only through self.outputs.
-- ===========================================================================

/-- A heap of outputs dicts addressed by allocation number. -/
structure Heap where
  store : Nat → List (String × String)
  next : Nat

/-- InterviewPlatformWorkflow.__init__ (lines 188-190): binds self.outputs
to a freshly allocated empty dict and returns the reference to it. -/
def workflow_init (h : Heap) : Nat × Heap :=
  (h.next,
   { store := fun r => if r = h.next then [] else h.store r,
     next := h.next + 1 })

/-- One self.outputs[k] = v write through the reference ref. -/
def write_output (h : Heap) (ref : Nat) (k v : String) : Heap :=
  { h with store := fun r => if r = ref then h.store r ++ [(k, v)] else h.store r }

/-- execute_workflow run by the workflow owning ref, starting from its
fresh empty dict: every write of the run goes through self.outputs, so
only the dict at ref changes. -/
def execute_workflow_on (h : Heap) (ref : Nat) (oracle : Oracle) : Heap :=
  { h with store := fun r => if r = ref then (execute_workflow oracle).2.outputs else h.store r }

-- ===========================================================================
-- Trace characterizations of execute_workflow, one per abort point.
-- ===========================================================================

/-- The full trace of an error-free run. -/
def okTrace (r0 r1 r2 r3 : String) : List Event :=
  [Event.render "research" [],
   Event.call "research" research_system_message research_initial_message,
   Event.record "research" r0,
   Event.render "analysis" [("research", r0)],
   Event.call "analysis" analysis_system_message (analysis_user_message r0),
   Event.record "analysis" r1,
   Event.render "blueprint" [("research", r0), ("analysis", r1)],
   Event.call "blueprint" blueprint_system_message (blueprint_user_message r0 r1),
   Event.record "blueprint" r2,
   Event.render "technical" [("blueprint", r2)],
   Event.call "technical" technical_system_message (technical_user_message r2),
   Event.record "technical" r3,
   Event.render "review" [("blueprint", r2), ("technical", r3)],
   Event.call "review" reviewer_system_message (review_user_message r2 r3)]

theorem execute_workflow_ok_eq (oracle : Oracle) (r0 r1 r2 r3 r4 : String)
    (h0 : oracle 0 = Except.ok r0) (h1 : oracle 1 = Except.ok r1)
    (h2 : oracle 2 = Except.ok r2) (h3 : oracle 3 = Except.ok r3)
    (h4 : oracle 4 = Except.ok r4) :
    execute_workflow oracle =
      (Except.ok [("research", r0), ("analysis", r1), ("blueprint", r2),
                  ("technical", r3), ("review", r4)],
       { outputs := [("research", r0), ("analysis", r1), ("blueprint", r2),
                     ("technical", r3), ("review", r4)],
         trace := okTrace r0 r1 r2 r3 ++ [Event.record "review" r4],
         calls := 5 }) := by
  simp [execute_workflow, initiate_research_phase, conduct_analysis_phase,
        create_blueprint_phase, conduct_technical_assessment_phase,
        conduct_review_phase, run_phase, chat_completions_create, initState,
        okTrace, h0, h1, h2, h3, h4]

theorem execute_workflow_err0_eq (oracle : Oracle) (e : ModelError)
    (h0 : oracle 0 = Except.error e) :
    execute_workflow oracle =
      (Except.error e,
       { outputs := [],
         trace := [Event.render "research" [],
                   Event.call "research" research_system_message research_initial_message],
         calls := 1 }) := by
  simp [execute_workflow, initiate_research_phase, run_phase,
        chat_completions_create, initState, h0]

theorem execute_workflow_err1_eq (oracle : Oracle) (r0 : String) (e : ModelError)
    (h0 : oracle 0 = Except.ok r0) (h1 : oracle 1 = Except.error e) :
    execute_workflow oracle =
      (Except.error e,
       { outputs := [("research", r0)],
         trace := [Event.render "research" [],
                   Event.call "research" research_system_message research_initial_message,
                   Event.record "research" r0,
                   Event.render "analysis" [("research", r0)],
                   Event.call "analysis" analysis_system_message (analysis_user_message r0)],
         calls := 2 }) := by
  simp [execute_workflow, initiate_research_phase, conduct_analysis_phase,
        run_phase, chat_completions_create, initState, h0, h1]

theorem execute_workflow_err2_eq (oracle : Oracle) (r0 r1 : String) (e : ModelError)
    (h0 : oracle 0 = Except.ok r0) (h1 : oracle 1 = Except.ok r1)
    (h2 : oracle 2 = Except.error e) :
    execute_workflow oracle =
      (Except.error e,
       { outputs := [("research", r0), ("analysis", r1)],
         trace := [Event.render "research" [],
                   Event.call "research" research_system_message research_initial_message,
                   Event.record "research" r0,
                   Event.render "analysis" [("research", r0)],
                   Event.call "analysis" analysis_system_message (analysis_user_message r0),
                   Event.record "analysis" r1,
                   Event.render "blueprint" [("research", r0), ("analysis", r1)],
                   Event.call "blueprint" blueprint_system_message (blueprint_user_message r0 r1)],
         calls := 3 }) := by
  simp [execute_workflow, initiate_research_phase, conduct_analysis_phase,
        create_blueprint_phase, run_phase, chat_completions_create, initState,
        h0, h1, h2]

theorem execute_workflow_err3_eq (oracle : Oracle) (r0 r1 r2 : String) (e : ModelError)
    (h0 : oracle 0 = Except.ok r0) (h1 : oracle 1 = Except.ok r1)
    (h2 : oracle 2 = Except.ok r2) (h3 : oracle 3 = Except.error e) :
    execute_workflow oracle =
      (Except.error e,
       { outputs := [("research", r0), ("analysis", r1), ("blueprint", r2)],
         trace := [Event.render "research" [],
                   Event.call "research" research_system_message research_initial_message,
                   Event.record "research" r0,
                   Event.render "analysis" [("research", r0)],
                   Event.call "analysis" analysis_system_message (analysis_user_message r0),
                   Event.record "analysis" r1,
                   Event.render "blueprint" [("research", r0), ("analysis", r1)],
                   Event.call "blueprint" blueprint_system_message (blueprint_user_message r0 r1),
                   Event.record "blueprint" r2,
                   Event.render "technical" [("blueprint", r2)],
                   Event.call "technical" technical_system_message (technical_user_message r2)],
         calls := 4 }) := by
  simp [execute_workflow, initiate_research_phase, conduct_analysis_phase,
        create_blueprint_phase, conduct_technical_assessment_phase, run_phase,
        chat_completions_create, initState, h0, h1, h2, h3]

theorem execute_workflow_err4_eq (oracle : Oracle) (r0 r1 r2 r3 : String) (e : ModelError)
    (h0 : oracle 0 = Except.ok r0) (h1 : oracle 1 = Except.ok r1)
    (h2 : oracle 2 = Except.ok r2) (h3 : oracle 3 = Except.ok r3)
    (h4 : oracle 4 = Except.error e) :
    execute_workflow oracle =
      (Except.error e,
       { outputs := [("research", r0), ("analysis", r1), ("blueprint", r2),
                     ("technical", r3)],
         trace := okTrace r0 r1 r2 r3,
         calls := 5 }) := by
  simp [execute_workflow, initiate_research_phase, conduct_analysis_phase,
        create_blueprint_phase, conduct_technical_assessment_phase,
        conduct_review_phase, run_phase, chat_completions_create, initState,
        okTrace, h0, h1, h2, h3, h4]

-- ===========================================================================
-- Substring helpers and the six-way case analysis of a run.
-- ===========================================================================

theorem substr_hd (n t : String) : substr n (n ++ t) := ⟨"", t, rfl⟩

theorem substr_cons (a n h : String) : substr n h → substr n (a ++ h)
  | ⟨p, s, he⟩ => ⟨a ++ p, s, by rw [he, ← String.append_assoc, ← String.append_assoc]⟩

theorem substr_last (p n : String) : substr n (p ++ n) :=
  ⟨p, "", (String.append_empty (p ++ n)).symm⟩

theorem substr_snoc (h n b : String) : substr n h → substr n (h ++ b)
  | ⟨p, s, he⟩ => ⟨p, s ++ b, by rw [he, String.append_assoc]⟩

theorem execute_workflow_cases (oracle : Oracle) :
    (∃ e, oracle 0 = Except.error e) ∨
    (∃ r0 e, oracle 0 = Except.ok r0 ∧ oracle 1 = Except.error e) ∨
    (∃ r0 r1 e, oracle 0 = Except.ok r0 ∧ oracle 1 = Except.ok r1 ∧
      oracle 2 = Except.error e) ∨
    (∃ r0 r1 r2 e, oracle 0 = Except.ok r0 ∧ oracle 1 = Except.ok r1 ∧
      oracle 2 = Except.ok r2 ∧ oracle 3 = Except.error e) ∨
    (∃ r0 r1 r2 r3 e, oracle 0 = Except.ok r0 ∧ oracle 1 = Except.ok r1 ∧
      oracle 2 = Except.ok r2 ∧ oracle 3 = Except.ok r3 ∧ oracle 4 = Except.error e) ∨
    (∃ r0 r1 r2 r3 r4, oracle 0 = Except.ok r0 ∧ oracle 1 = Except.ok r1 ∧
      oracle 2 = Except.ok r2 ∧ oracle 3 = Except.ok r3 ∧ oracle 4 = Except.ok r4) := by
  rcases h0 : oracle 0 with e | r0
  · exact Or.inl ⟨e, rfl⟩
  rcases h1 : oracle 1 with e | r1
  · exact Or.inr (Or.inl ⟨r0, e, rfl, rfl⟩)
  rcases h2 : oracle 2 with e | r2
  · exact Or.inr (Or.inr (Or.inl ⟨r0, r1, e, rfl, rfl, rfl⟩))
  rcases h3 : oracle 3 with e | r3
  · exact Or.inr (Or.inr (Or.inr (Or.inl ⟨r0, r1, r2, e, rfl, rfl, rfl, rfl⟩)))
  rcases h4 : oracle 4 with e | r4
  · exact Or.inr (Or.inr (Or.inr (Or.inr (Or.inl ⟨r0, r1, r2, r3, e, rfl, rfl, rfl, rfl, rfl⟩))))
  · exact Or.inr (Or.inr (Or.inr (Or.inr (Or.inr ⟨r0, r1, r2, r3, r4, rfl, rfl, rfl, rfl, rfl⟩))))

-- ===========================================================================
-- Claim theorems
-- ===========================================================================

/-- Claim C3: each of the five crewai tool functions returns a template
string built only from constant text and its string arguments — there are
fixed strings, independent of the inputs, such that every output is their
concatenation with the arguments interpolated, and each argument occurs
literally in the output.  The tools are plain String functions of their
arguments in this embedding (no effect type), so each is pure and
deterministic and performs no search-API or network call. -/
theorem crewai_tools_are_pure_templates :
    ((∃ a b c, ∀ destination departure_city,
        search_flight_prices destination departure_city =
          a ++ departure_city ++ b ++ destination ++ c) ∧
     ∀ destination departure_city,
        substr departure_city (search_flight_prices destination departure_city) ∧
        substr destination (search_flight_prices destination departure_city)) ∧
    ((∃ a b c, ∀ location check_in_date,
        search_hotel_options location check_in_date =
          a ++ location ++ b ++ check_in_date ++ c) ∧
     ∀ location check_in_date,
        substr location (search_hotel_options location check_in_date) ∧
        substr check_in_date (search_hotel_options location check_in_date)) ∧
    ((∃ a b, ∀ destination,
        search_local_transportation destination = a ++ destination ++ b) ∧
     ∀ destination, substr destination (search_local_transportation destination)) ∧
    ((∃ a b, ∀ destination,
        search_attractions_activities destination = a ++ destination ++ b) ∧
     ∀ destination, substr destination (search_attractions_activities destination)) ∧
    ((∃ a b, ∀ destination,
        search_travel_costs destination = a ++ destination ++ b) ∧
     ∀ destination, substr destination (search_travel_costs destination)) := by
  refine ⟨⟨⟨flight_t1, flight_t2, flight_t3, fun d c => rfl⟩, fun d c => ⟨?_, ?_⟩⟩,
          ⟨⟨hotel_t1, hotel_t2, hotel_t3, fun l ci => rfl⟩, fun l ci => ⟨?_, ?_⟩⟩,
          ⟨⟨transport_t1, transport_t2, fun d => rfl⟩, fun d => ?_⟩,
          ⟨⟨attractions_t1, attractions_t2, fun d => rfl⟩, fun d => ?_⟩,
          ⟨⟨costs_t1, costs_t2, fun d => rfl⟩, fun d => ?_⟩⟩
  · exact substr_snoc _ _ _ (substr_snoc _ _ _ (substr_snoc _ _ _ (substr_last _ _)))
  · exact substr_snoc _ _ _ (substr_last _ _)
  · exact substr_snoc _ _ _ (substr_snoc _ _ _ (substr_snoc _ _ _ (substr_last _ _)))
  · exact substr_snoc _ _ _ (substr_last _ _)
  · exact substr_snoc _ _ _ (substr_last _ _)
  · exact substr_snoc _ _ _ (substr_last _ _)
  · exact substr_snoc _ _ _ (substr_last _ _)

/-- Claim C9: the hotel agent and the hotel task compute the same
hotel_location, case-insensitively: Reykjavik when the destination
lower-cases to iceland, Paris for france, Tokyo for japan, and the
destination itself otherwise; both the agent goal and the task
description embed that location literally. -/
theorem hotel_location_consistent (destination trip_dates : String) :
    create_hotel_agent_hotel_location destination = create_hotel_task_hotel_location destination ∧
    (lower destination = "iceland" → create_hotel_agent_hotel_location destination = "Reykjavik") ∧
    (lower destination = "france" → create_hotel_agent_hotel_location destination = "Paris") ∧
    (lower destination = "japan" → create_hotel_agent_hotel_location destination = "Tokyo") ∧
    (lower destination ≠ "iceland" → lower destination ≠ "france" → lower destination ≠ "japan" →
      create_hotel_agent_hotel_location destination = destination) ∧
    substr (create_hotel_agent_hotel_location destination)
      (create_hotel_agent_goal destination trip_dates) ∧
    substr (create_hotel_task_hotel_location destination)
      (create_hotel_task_description destination trip_dates) := by
  refine ⟨rfl, ?_, ?_, ?_, ?_, ?_, ?_⟩
  · intro h; simp [create_hotel_agent_hotel_location, h]
  · intro h; simp [create_hotel_agent_hotel_location, h]
  · intro h; simp [create_hotel_agent_hotel_location, h]
  · intro h1 h2 h3
    simp [create_hotel_agent_hotel_location, beq_iff_eq, h1, h2, h3]
  · exact substr_snoc _ _ _ (substr_snoc _ _ _ (substr_snoc _ _ _
      (substr_snoc _ _ _ (substr_snoc _ _ _ (substr_last _ _)))))
  · exact substr_snoc _ _ _ (substr_last _ _)

/-- Witness for C9 at concrete destinations. -/
theorem hotel_location_consistent_witness :
    lower "Iceland" = "iceland" ∧
    create_hotel_agent_hotel_location "Iceland" = "Reykjavik" ∧
    create_hotel_task_hotel_location "Iceland" = "Reykjavik" ∧
    create_hotel_agent_hotel_location "Oslo" = "Oslo" := by
  refine ⟨by decide, ?_, ?_, ?_⟩
  · exact (hotel_location_consistent "Iceland" "d").2.1 (by decide)
  · rw [← (hotel_location_consistent "Iceland" "d").1]
    exact (hotel_location_consistent "Iceland" "d").2.1 (by decide)
  · exact (hotel_location_consistent "Oslo" "d").2.2.2.2.1
      (by decide) (by decide) (by decide)

/-- Claim C10: the crewai command-line arguments are strictly positional
(argument 1 destination, 2 trip_duration, 3 departure_city, 4 trip_dates,
5 travelers via int(), 6 budget_preference), and a non-integer fifth
argument makes parsing end in ValueError, so main — and with it the crew
— never runs. -/
theorem cli_args_positional :
    (∀ p a1, parse_cli [p, a1] = Except.ok { default_kwargs with destination := a1 }) ∧
    (∀ p a1 a2 a3 a4 a5 a6 n, python_int a5 = some n →
      parse_cli [p, a1, a2, a3, a4, a5, a6] =
        Except.ok { destination := a1, trip_duration := a2, departure_city := a3,
                    trip_dates := a4, travelers := n, budget_preference := a6 }) ∧
    (∀ argv, argv.length > 5 → python_int (argv.getD 5 "") = none →
      parse_cli argv = Except.error ()) := by
  refine ⟨?_, ?_, ?_⟩
  · intro p a1
    simp [parse_cli, default_kwargs]
  · intro p a1 a2 a3 a4 a5 a6 n h
    simp [parse_cli, h]
  · intro argv hlen hnone
    have h1 : argv.length > 1 := by omega
    have h2 : argv.length > 2 := by omega
    have h3 : argv.length > 3 := by omega
    have h4 : argv.length > 4 := by omega
    simp [parse_cli, h1, h2, h3, h4, hlen] at hnone ⊢
    simp [hnone]

/-- Witness for C10: a non-integer fifth argument is rejected, an integer
one is accepted with every field taken from its position. -/
theorem cli_args_positional_witness :
    python_int "four" = none ∧
    parse_cli ["crewai_demo.py", "France", "7 days", "Los Angeles",
               "March 1-7, 2026", "four", "luxury"] = Except.error () ∧
    parse_cli ["crewai_demo.py", "France", "7 days", "Los Angeles",
               "March 1-7, 2026", "4", "luxury"] =
      Except.ok { destination := "France", trip_duration := "7 days",
                  departure_city := "Los Angeles", trip_dates := "March 1-7, 2026",
                  travelers := 4, budget_preference := "luxury" } := by
  refine ⟨rfl, ?_, ?_⟩
  · exact cli_args_positional.2.2 _ (by decide) rfl
  · exact cli_args_positional.2.1 "crewai_demo.py" _ _ _ _ _ _ 4 rfl

/-- The oracle that answers every call with the text out. -/
def allOkOracle : Oracle := fun _ => Except.ok "out"

/-- Claim C8: whenever the research call returns output r0, the analysis
phase issues its model call with the user prompt analysis_user_message r0,
and that prompt contains r0 as a literal substring. -/
theorem analysis_prompt_contains_research (oracle : Oracle) (r0 : String)
    (h0 : oracle 0 = Except.ok r0) :
    Event.call "analysis" analysis_system_message (analysis_user_message r0) ∈
      (execute_workflow oracle).2.trace ∧
    substr r0 (analysis_user_message r0) := by
  constructor
  · rcases execute_workflow_cases oracle with ⟨e, h⟩ | ⟨a0, e, h, h1⟩ |
      ⟨a0, a1, e, h, h1, h2⟩ | ⟨a0, a1, a2, e, h, h1, h2, h3⟩ |
      ⟨a0, a1, a2, a3, e, h, h1, h2, h3, h4⟩ | ⟨a0, a1, a2, a3, a4, h, h1, h2, h3, h4⟩
    · rw [h0] at h; cases h
    · rw [h0] at h; injection h with h; subst h
      rw [execute_workflow_err1_eq oracle r0 e h0 h1]; simp
    · rw [h0] at h; injection h with h; subst h
      rw [execute_workflow_err2_eq oracle r0 a1 e h0 h1 h2]; simp
    · rw [h0] at h; injection h with h; subst h
      rw [execute_workflow_err3_eq oracle r0 a1 a2 e h0 h1 h2 h3]; simp
    · rw [h0] at h; injection h with h; subst h
      rw [execute_workflow_err4_eq oracle r0 a1 a2 a3 e h0 h1 h2 h3 h4]
      simp [okTrace]
    · rw [h0] at h; injection h with h; subst h
      rw [execute_workflow_ok_eq oracle r0 a1 a2 a3 a4 h0 h1 h2 h3 h4]
      simp [okTrace]
  · exact ⟨analysis_u1, analysis_u2, rfl⟩

/-- Witness for C8 on the all-ok oracle. -/
theorem analysis_prompt_contains_research_witness :
    allOkOracle 0 = Except.ok "out" ∧
    (Event.call "analysis" analysis_system_message (analysis_user_message "out") ∈
      (execute_workflow allOkOracle).2.trace ∧
    substr "out" (analysis_user_message "out")) :=
  ⟨rfl, analysis_prompt_contains_research allOkOracle "out" rfl⟩

/-- The oracle whose first call raises a transient error and whose later
calls would succeed. -/
def transientFirstOracle : Oracle := fun n =>
  if n = 0 then Except.error ModelError.transient else Except.ok "recovered"

/-- Claim C1 counterexample: a retry bound of 3 requires a second attempt
after a first transient failure, but the code makes exactly one model
call, records nothing, and propagates the error — there is no retry and
no Failed state carrying an attempt count. -/
theorem retry_bound_counterexample :
    (execute_workflow transientFirstOracle).1 = Except.error ModelError.transient ∧
    countCalls (execute_workflow transientFirstOracle).2.trace = 1 ∧
    (execute_workflow transientFirstOracle).2.outputs = [] :=
  ⟨rfl, rfl, rfl⟩

/-- Claim C1 (amended): the workflow performs no retries at all: when the
calls before k succeed and call k — the single attempt of stage k —
raises e (transient or fatal), the run has made exactly k+1 model calls
in total and ends with e propagated.  In particular no stage is attempted
twice, so a 4th attempt never happens. -/
theorem no_retry_single_attempt (oracle : Oracle) (k : Nat) (e : ModelError)
    (hk : k < 5)
    (hprev : ∀ j, j < k → ∃ s, oracle j = Except.ok s)
    (he : oracle k = Except.error e) :
    (execute_workflow oracle).1 = Except.error e ∧
    countCalls (execute_workflow oracle).2.trace = k + 1 := by
  interval_cases k
  · rw [execute_workflow_err0_eq oracle e he]
    exact ⟨rfl, rfl⟩
  · obtain ⟨r0, h0⟩ := hprev 0 (by norm_num)
    rw [execute_workflow_err1_eq oracle r0 e h0 he]
    exact ⟨rfl, rfl⟩
  · obtain ⟨r0, h0⟩ := hprev 0 (by norm_num)
    obtain ⟨r1, h1⟩ := hprev 1 (by norm_num)
    rw [execute_workflow_err2_eq oracle r0 r1 e h0 h1 he]
    exact ⟨rfl, rfl⟩
  · obtain ⟨r0, h0⟩ := hprev 0 (by norm_num)
    obtain ⟨r1, h1⟩ := hprev 1 (by norm_num)
    obtain ⟨r2, h2⟩ := hprev 2 (by norm_num)
    rw [execute_workflow_err3_eq oracle r0 r1 r2 e h0 h1 h2 he]
    exact ⟨rfl, rfl⟩
  · obtain ⟨r0, h0⟩ := hprev 0 (by norm_num)
    obtain ⟨r1, h1⟩ := hprev 1 (by norm_num)
    obtain ⟨r2, h2⟩ := hprev 2 (by norm_num)
    obtain ⟨r3, h3⟩ := hprev 3 (by norm_num)
    rw [execute_workflow_err4_eq oracle r0 r1 r2 r3 e h0 h1 h2 h3 he]
    exact ⟨rfl, rfl⟩

/-- The oracle whose third call raises a transient error. -/
def transientThirdOracle : Oracle := fun n =>
  if n = 2 then Except.error ModelError.transient else Except.ok "text"

/-- Witness for the amended C1 at a concrete oracle. -/
theorem no_retry_single_attempt_witness :
    (∀ j, j < 2 → ∃ s, transientThirdOracle j = Except.ok s) ∧
    transientThirdOracle 2 = Except.error ModelError.transient ∧
    ((execute_workflow transientThirdOracle).1 = Except.error ModelError.transient ∧
     countCalls (execute_workflow transientThirdOracle).2.trace = 3) := by
  have hprev : ∀ j, j < 2 → ∃ s, transientThirdOracle j = Except.ok s := by
    intro j hj
    interval_cases j <;> exact ⟨"text", rfl⟩
  exact ⟨hprev, rfl,
    no_retry_single_attempt transientThirdOracle 2 ModelError.transient
      (by norm_num) hprev rfl⟩

/-- Claim C2: stages execute strictly in declared order: whenever stage
i+1 renders or calls at all, the record event of stage i exists and
strictly precedes the first render/call event of stage i+1 in the trace.
(Each stage renders, calls and records at most once per run, so the first
occurrence is the only one.) -/
theorem stage_order_guarantee (oracle : Oracle) (i : Nat) (hi : i + 1 < 5)
    (hstart : (execute_workflow oracle).2.trace.any (startsStage (i + 1)) = true) :
    (execute_workflow oracle).2.trace.any (recordsStage i) = true ∧
    (execute_workflow oracle).2.trace.findIdx (recordsStage i) <
      (execute_workflow oracle).2.trace.findIdx (startsStage (i + 1)) := by
  have hi4 : i < 4 := by omega
  rcases execute_workflow_cases oracle with ⟨e, h0⟩ | ⟨r0, e, h0, h1⟩ |
    ⟨r0, r1, e, h0, h1, h2⟩ | ⟨r0, r1, r2, e, h0, h1, h2, h3⟩ |
    ⟨r0, r1, r2, r3, e, h0, h1, h2, h3, h4⟩ | ⟨r0, r1, r2, r3, r4, h0, h1, h2, h3, h4⟩
  · rw [execute_workflow_err0_eq oracle e h0] at hstart ⊢
    interval_cases i <;>
      simp_all [startsStage, recordsStage, isRenderEv, isCallEv, isRecordEv,
        eventStage, stageName, stageNames, List.findIdx_cons]
  · rw [execute_workflow_err1_eq oracle r0 e h0 h1] at hstart ⊢
    interval_cases i <;>
      simp_all [startsStage, recordsStage, isRenderEv, isCallEv, isRecordEv,
        eventStage, stageName, stageNames, List.findIdx_cons]
  · rw [execute_workflow_err2_eq oracle r0 r1 e h0 h1 h2] at hstart ⊢
    interval_cases i <;>
      simp_all [startsStage, recordsStage, isRenderEv, isCallEv, isRecordEv,
        eventStage, stageName, stageNames, List.findIdx_cons]
  · rw [execute_workflow_err3_eq oracle r0 r1 r2 e h0 h1 h2 h3] at hstart ⊢
    interval_cases i <;>
      simp_all [startsStage, recordsStage, isRenderEv, isCallEv, isRecordEv,
        eventStage, stageName, stageNames, List.findIdx_cons]
  · rw [execute_workflow_err4_eq oracle r0 r1 r2 r3 e h0 h1 h2 h3 h4] at hstart ⊢
    interval_cases i <;>
      simp_all [startsStage, recordsStage, isRenderEv, isCallEv, isRecordEv,
        eventStage, stageName, stageNames, List.findIdx_cons, okTrace]
  · rw [execute_workflow_ok_eq oracle r0 r1 r2 r3 r4 h0 h1 h2 h3 h4] at hstart ⊢
    interval_cases i <;>
      simp_all [startsStage, recordsStage, isRenderEv, isCallEv, isRecordEv,
        eventStage, stageName, stageNames, List.findIdx_cons, okTrace]

/-- Witness for C2: on the all-ok run, the analysis stage (index 1)
starts only after the research record. -/
theorem stage_order_guarantee_witness :
    ((execute_workflow allOkOracle).2.trace.any (startsStage 1) = true) ∧
    ((execute_workflow allOkOracle).2.trace.any (recordsStage 0) = true ∧
     (execute_workflow allOkOracle).2.trace.findIdx (recordsStage 0) <
       (execute_workflow allOkOracle).2.trace.findIdx (startsStage 1)) :=
  ⟨rfl, stage_order_guarantee allOkOracle 0 (by norm_num) rfl⟩

/-- Claim C4: an error-free run returns the outputs mapping with an entry
for all five stage names, each non-empty when the model answers are
non-empty, and the run has made exactly all five model calls when it
finishes. -/
theorem complete_run_all_outputs (oracle : Oracle)
    (hok : ∀ k, k < 5 → ∃ s, oracle k = Except.ok s ∧ s ≠ "") :
    ∃ m, (execute_workflow oracle).1 = Except.ok m ∧
      m.length = 5 ∧
      (∀ name, name ∈ stageNames → ∃ s, List.lookup name m = some s ∧ s ≠ "") ∧
      countCalls (execute_workflow oracle).2.trace = 5 := by
  obtain ⟨r0, h0, n0⟩ := hok 0 (by norm_num)
  obtain ⟨r1, h1, n1⟩ := hok 1 (by norm_num)
  obtain ⟨r2, h2, n2⟩ := hok 2 (by norm_num)
  obtain ⟨r3, h3, n3⟩ := hok 3 (by norm_num)
  obtain ⟨r4, h4, n4⟩ := hok 4 (by norm_num)
  rw [execute_workflow_ok_eq oracle r0 r1 r2 r3 r4 h0 h1 h2 h3 h4]
  refine ⟨_, rfl, rfl, ?_, rfl⟩
  intro name hname
  simp only [stageNames] at hname
  fin_cases hname
  · exact ⟨r0, by simp [List.lookup], n0⟩
  · exact ⟨r1, by simp [List.lookup], n1⟩
  · exact ⟨r2, by simp [List.lookup], n2⟩
  · exact ⟨r3, by simp [List.lookup], n3⟩
  · exact ⟨r4, by simp [List.lookup], n4⟩

/-- Witness for C4 on the all-ok oracle. -/
theorem complete_run_all_outputs_witness :
    (∀ k, k < 5 → ∃ s, allOkOracle k = Except.ok s ∧ s ≠ "") ∧
    (∃ m, (execute_workflow allOkOracle).1 = Except.ok m ∧
      m.length = 5 ∧
      (∀ name, name ∈ stageNames → ∃ s, List.lookup name m = some s ∧ s ≠ "") ∧
      countCalls (execute_workflow allOkOracle).2.trace = 5) := by
  have hok : ∀ k, k < 5 → ∃ s, allOkOracle k = Except.ok s ∧ s ≠ "" :=
    fun k hk => ⟨"out", rfl, by decide⟩
  exact ⟨hok, complete_run_all_outputs allOkOracle hok⟩

/-- The arguments the first render event of the given stage carries. -/
def renderArgsOf (tr : List Event) (stage : String) : List (String × String) :=
  (tr.findSome? fun e =>
    match e with
    | Event.render s args => if s == stage then some args else none
    | _ => none).getD []

/-- The oracle whose five answers are the distinct texts R, A, B, T, V. -/
def namedOracle : Oracle := fun n => Except.ok (["R", "A", "B", "T", "V"].getD n "")

/-- Claim C5 counterexample: in the run producing R, A, B, T, V, the
technical stage (index 3) has its prompt rendered from only the blueprint
output, not from the outputs of all of stages 0..2 as the claim requires.
-/
theorem render_args_counterexample :
    renderArgsOf (execute_workflow namedOracle).2.trace "technical" = [("blueprint", "B")] ∧
    renderArgsOf (execute_workflow namedOracle).2.trace "technical" ≠
      [("research", "R"), ("analysis", "A"), ("blueprint", "B")] := by
  exact ⟨rfl, by decide⟩

/-- Claim C5 (amended): every stage renders its prompt only from outputs
of strictly earlier stages — the names handed to the render step all lie
among the stage names before index i, and every value handed over is the
recorded output of that earlier stage; but not every earlier output is
included (technical receives only blueprint, review only blueprint and
technical). -/
theorem render_args_only_earlier (oracle : Oracle) (i : Nat) (args : List (String × String))
    (hi : i < 5)
    (hr : Event.render (stageName i) args ∈ (execute_workflow oracle).2.trace) :
    args.map Prod.fst ⊆ stageNames.take i ∧
    ∀ p, p ∈ args → Event.record p.1 p.2 ∈ (execute_workflow oracle).2.trace := by
  have hi4 : i < 5 := hi
  rcases execute_workflow_cases oracle with ⟨e, h0⟩ | ⟨r0, e, h0, h1⟩ |
    ⟨r0, r1, e, h0, h1, h2⟩ | ⟨r0, r1, r2, e, h0, h1, h2, h3⟩ |
    ⟨r0, r1, r2, r3, e, h0, h1, h2, h3, h4⟩ | ⟨r0, r1, r2, r3, r4, h0, h1, h2, h3, h4⟩
  · rw [execute_workflow_err0_eq oracle e h0] at hr ⊢
    interval_cases i <;> simp_all [stageName, stageNames]
  · rw [execute_workflow_err1_eq oracle r0 e h0 h1] at hr ⊢
    interval_cases i <;> simp_all [stageName, stageNames]
  · rw [execute_workflow_err2_eq oracle r0 r1 e h0 h1 h2] at hr ⊢
    interval_cases i <;> simp_all [stageName, stageNames]
  · rw [execute_workflow_err3_eq oracle r0 r1 r2 e h0 h1 h2 h3] at hr ⊢
    interval_cases i <;> simp_all [stageName, stageNames]
  · rw [execute_workflow_err4_eq oracle r0 r1 r2 r3 e h0 h1 h2 h3 h4] at hr ⊢
    interval_cases i <;> simp_all [stageName, stageNames, okTrace]
  · rw [execute_workflow_ok_eq oracle r0 r1 r2 r3 r4 h0 h1 h2 h3 h4] at hr ⊢
    interval_cases i <;> simp_all [stageName, stageNames, okTrace]

/-- Witness for the amended C5 at the technical stage of the all-ok run.
-/
theorem render_args_only_earlier_witness :
    (Event.render "technical" [("blueprint", "out")] ∈
      (execute_workflow allOkOracle).2.trace) ∧
    ([("blueprint", "out")].map Prod.fst ⊆ stageNames.take 3 ∧
     ∀ p, p ∈ [(("blueprint" : String), ("out" : String))] →
       Event.record p.1 p.2 ∈ (execute_workflow allOkOracle).2.trace) := by
  have hr : Event.render (stageName 3) [("blueprint", "out")] ∈
      (execute_workflow allOkOracle).2.trace := by decide
  exact ⟨hr, render_args_only_earlier allOkOracle 3 _ (by norm_num) hr⟩

/-- A fixed generation timestamp for concrete documents. -/
def sample_generated : String := "2025-01-01 00:00:00"

/-- Claim C6 counterexample: for the empty outputs mapping (no stage
produced any output) save_outputs still produces a document: it contains
the fixed replacement text No research output, and is literally identical
to the document of a run whose stages returned exactly the placeholder
strings — so a missing output is silently substituted by placeholder
text, with no stage-failure report, error kind, or attempt count
(save_outputs receives none of these). -/
theorem placeholder_substitution_counterexample :
    substr "No research output" (save_outputs_text [] sample_generated) ∧
    save_outputs_text [] sample_generated =
      save_outputs_text
        [("research", "No research output"), ("analysis", "No analysis output"),
         ("blueprint", "No blueprint output"), ("technical", "No technical output"),
         ("review", "No review output")] sample_generated := by
  constructor
  · simp only [save_outputs_text]
    repeat first
      | exact substr_last _ _
      | apply substr_snoc
  · rfl

/-- Claim C6 (amended): for every stage of the pipeline, whenever that
stage has no entry in the outputs mapping, the document save_outputs
writes equals the document of a mapping in which that stage produced its
placeholder string No <stage> output — each missing output is substituted
silently and indistinguishably. -/
theorem save_outputs_substitutes_placeholder
    (outputs : List (String × String)) (generated : String) (stage : String)
    (hs : stage ∈ stageNames)
    (h : List.lookup stage outputs = none) :
    save_outputs_text outputs generated =
      save_outputs_text ((stage, "No " ++ stage ++ " output") :: outputs) generated := by
  simp only [stageNames] at hs
  fin_cases hs
  · rw [show ("No " ++ "research" ++ " output" : String) = "No research output" from rfl]
    simp [save_outputs_text, dict_get, List.lookup_cons, h]
  · rw [show ("No " ++ "analysis" ++ " output" : String) = "No analysis output" from rfl]
    simp [save_outputs_text, dict_get, List.lookup_cons, h]
  · rw [show ("No " ++ "blueprint" ++ " output" : String) = "No blueprint output" from rfl]
    simp [save_outputs_text, dict_get, List.lookup_cons, h]
  · rw [show ("No " ++ "technical" ++ " output" : String) = "No technical output" from rfl]
    simp [save_outputs_text, dict_get, List.lookup_cons, h]
  · rw [show ("No " ++ "review" ++ " output" : String) = "No review output" from rfl]
    simp [save_outputs_text, dict_get, List.lookup_cons, h]

/-- Witness for the amended C6: the review stage missing from a mapping
holding only a research output. -/
theorem save_outputs_substitutes_placeholder_witness :
    ("review" ∈ stageNames) ∧
    List.lookup "review" [(("research" : String), ("R" : String))] = none ∧
    save_outputs_text [("research", "R")] sample_generated =
      save_outputs_text (("review", "No " ++ "review" ++ " output") :: [("research", "R")])
        sample_generated :=
  ⟨by decide, rfl,
    save_outputs_substitutes_placeholder [("research", "R")] sample_generated "review"
      (by decide) rfl⟩

/-- The heap after constructing two workflows and executing each of them
on its own oracle, in sequence. -/
def two_runs_final (h : Heap) (o1 o2 : Oracle) : Heap :=
  execute_workflow_on
    (execute_workflow_on (workflow_init (workflow_init h).2).2 (workflow_init h).1 o1)
    (workflow_init (workflow_init h).2).1 o2

/-- Claim C7: two runs of the same pipeline definition share no mutable
state: the two __init__ calls allocate distinct outputs dicts, after both
runs each reference holds exactly the outputs of its own run (each a
function of its own oracle only), and writing through the outputs
reference of either run never changes the outputs of the other. -/
theorem runs_are_independent (h : Heap) (o1 o2 : Oracle) (k v : String) :
    (workflow_init h).1 ≠ (workflow_init (workflow_init h).2).1 ∧
    (two_runs_final h o1 o2).store (workflow_init h).1 =
      (execute_workflow o1).2.outputs ∧
    (two_runs_final h o1 o2).store (workflow_init (workflow_init h).2).1 =
      (execute_workflow o2).2.outputs ∧
    (write_output (two_runs_final h o1 o2) (workflow_init (workflow_init h).2).1 k v).store
        (workflow_init h).1 =
      (two_runs_final h o1 o2).store (workflow_init h).1 ∧
    (write_output (two_runs_final h o1 o2) (workflow_init h).1 k v).store
        (workflow_init (workflow_init h).2).1 =
      (two_runs_final h o1 o2).store (workflow_init (workflow_init h).2).1 := by
  refine ⟨?_, ?_, ?_, ?_, ?_⟩ <;>
    simp [two_runs_final, workflow_init, execute_workflow_on, write_output]
